import Mathlib

/-!
Verification of the carris-ui-backend service (src/main.py).

The development shallowly embeds the program's data model and operations:

* the Redis keyed store (`RedisStore`) holding one hash per vehicle and one
  sorted set per vehicle track;
* the snapshot refresh pipeline `fetch_and_cache_vehicles` / `refreshCycle`,
  with backend failures modelled by `Except` results (`FallibleSource`);
* the relational reference catalog (`Catalog`) and the SQL queries of
  `load_and_cache_stops` and `get_shapes_for_route`, embedded as list
  comprehensions with multiset (bag) join semantics;
* the request handlers `get_vehicle_details`, `get_stop_details`,
  `get_vehicle_track`, with HTTP failures as `Except HTTPException`;
* the Socket.IO layer as a step function `stepServer` over server states,
  producing the list of emitted messages.

Numeric strings are parsed by `pyFloat`, an embedding of Python's `float`
constructor restricted to finite decimal literals (optional sign, integer
and fractional digits, optional decimal exponent, surrounding whitespace);
the special spellings `inf`/`nan` and underscore digit separators are outside
the model.  Parsed values are exact rationals, written `mant * 10 ^ exp`
via `mkRat`, so a value is falsy in Python's sense exactly when it equals 0.
-/

deriving instance DecidableEq for Except

namespace Carris

/-! ## Character and string utilities

String.trim / split / startsWith are re-implemented over `List Char` so that
all operations reduce computationally. -/

def isWsChar (c : Char) : Bool :=
  c == ' ' || c == '\t' || c == '\n' || c == '\r' || c == '\x0b' || c == '\x0c'

/-- Strip leading and trailing whitespace, as Python's str.strip(). -/
def stripChars (cs : List Char) : List Char :=
  ((cs.dropWhile isWsChar).reverse.dropWhile isWsChar).reverse

/-- Value of a digit string, most significant digit first. -/
def decDigits (cs : List Char) : Nat :=
  cs.foldl (fun n c => 10 * n + (c.toNat - 48)) 0

/-- Nonempty all-digit strings parse; anything else does not. -/
def parseUnsignedNat (cs : List Char) : Option Nat :=
  if cs.isEmpty then none
  else if cs.all Char.isDigit then some (decDigits cs) else none

def parseSignedInt : List Char → Option Int
  | '+' :: rest => (parseUnsignedNat rest).map Int.ofNat
  | '-' :: rest => (parseUnsignedNat rest).map (fun n => -(n : Int))
  | rest => (parseUnsignedNat rest).map Int.ofNat

/-- Exponent suffix of a float literal: empty, or e/E followed by a signed
integer. -/
def parseExpPart : List Char → Option Int
  | [] => some 0
  | 'e' :: rest => parseSignedInt rest
  | 'E' :: rest => parseSignedInt rest
  | _ => none

/-- Embedding of Python's float(s) on decimal literals: optional surrounding
whitespace, optional sign, digits with an optional fractional part (at least
one digit in total), optional decimal exponent.  The result is the exact
rational value of the literal. -/
def pyFloat (s : String) : Option Rat :=
  let cs := stripChars s.data
  let sgn : Int := match cs with
    | '-' :: _ => -1
    | _ => 1
  let cs1 : List Char := match cs with
    | '+' :: rest => rest
    | '-' :: rest => rest
    | rest => rest
  let ip := cs1.takeWhile Char.isDigit
  let rest1 := cs1.dropWhile Char.isDigit
  let fp : List Char := match rest1 with
    | '.' :: r => r.takeWhile Char.isDigit
    | _ => []
  let rest2 : List Char := match rest1 with
    | '.' :: r => r.dropWhile Char.isDigit
    | _ => rest1
  if ip.isEmpty && fp.isEmpty then none
  else
    match parseExpPart rest2 with
    | none => none
    | some e =>
      let mant : Int := sgn * (decDigits (ip ++ fp) : Int)
      let shift : Int := e - (fp.length : Int)
      some (if 0 ≤ shift then mkRat (mant * (((10 : Nat) ^ shift.toNat : Nat) : Int)) 1
            else mkRat mant ((10 : Nat) ^ (-shift).toNat))

/-- Embedding of Python's int(s): optional whitespace, optional sign, digits
only. -/
def pyIntOfString (s : String) : Option Int :=
  parseSignedInt (stripChars s.data)

/-- Substring test on character lists (Python's `in` on strings). -/
def containsSub (needle : List Char) : List Char → Bool
  | [] => needle.isEmpty
  | c :: rest => needle.isPrefixOf (c :: rest) || containsSub needle rest

def strContains (hay needle : String) : Bool :=
  containsSub needle.data hay.data

def strStartsWith (s pre : String) : Bool :=
  pre.data.isPrefixOf s.data

/-- Python's str.split(':'), which never returns an empty list. -/
def splitOnColon : List Char → List (List Char)
  | [] => [[]]
  | c :: rest =>
    let r := splitOnColon rest
    if c == ':' then [] :: r
    else
      match r with
      | [] => [[c]]
      | g :: gs => (c :: g) :: gs

/-- key.split(':')[1]; every key reaching this point starts with "vehicle:",
so the index is in range. -/
def vidOf (key : String) : String :=
  match (splitOnColon key.data).get? 1 with
  | some g => String.mk g
  | none => ""

/-! ## Lexicographic string order (for ORDER BY route_short_name) -/

def charsLe : List Char → List Char → Bool
  | [], _ => true
  | _ :: _, [] => false
  | a :: as, b :: bs =>
    if a.toNat < b.toNat then true
    else if b.toNat < a.toNat then false
    else charsLe as bs

/-- Lexicographic order on strings by character code; the collation used to
model SQL ORDER BY on text. -/
def strLe (a b : String) : Bool := charsLe a.data b.data

def StrLe (a b : String) : Prop := strLe a b = true

instance : DecidableRel StrLe := fun a b =>
  inferInstanceAs (Decidable (strLe a b = true))

theorem charsLe_total (a b : List Char) : charsLe a b = true ∨ charsLe b a = true := by
  induction a generalizing b with
  | nil => left; rfl
  | cons x xs ih =>
    cases b with
    | nil => right; rfl
    | cons y ys =>
      by_cases hxy : x.toNat < y.toNat
      · left; simp [charsLe, hxy]
      · by_cases hyx : y.toNat < x.toNat
        · right; simp [charsLe, hyx, hxy]
        · rcases ih ys with h | h
          · left; simp [charsLe, hxy, hyx, h]
          · right; simp [charsLe, hxy, hyx, h]

theorem charsLe_trans {a b c : List Char} (hab : charsLe a b = true)
    (hbc : charsLe b c = true) : charsLe a c = true := by
  induction a generalizing b c with
  | nil => rfl
  | cons x xs ih =>
    cases b with
    | nil => simp [charsLe] at hab
    | cons y ys =>
      cases c with
      | nil => simp [charsLe] at hbc
      | cons z zs =>
        simp only [charsLe] at hab hbc ⊢
        split at hab
        · rename_i hxy
          split at hbc
          · rename_i hyz
            simp [show x.toNat < z.toNat from lt_trans hxy hyz]
          · split at hbc
            · exact absurd hbc (by simp)
            · rename_i hyz hzy
              have hyz' : y.toNat = z.toNat := le_antisymm (le_of_not_lt hzy) (le_of_not_lt hyz)
              simp [hyz' ▸ hxy]
        · split at hab
          · exact absurd hab (by simp)
          · rename_i hxy hyx
            have hxy' : x.toNat = y.toNat := le_antisymm (le_of_not_lt hyx) (le_of_not_lt hxy)
            split at hbc
            · rename_i hyz
              simp [show x.toNat < z.toNat from hxy' ▸ hyz]
            · split at hbc
              · exact absurd hbc (by simp)
              · rename_i hyz hzy
                have h1 : ¬ x.toNat < z.toNat := by omega
                have h2 : ¬ z.toNat < x.toNat := by omega
                simp [h1, h2]
                exact ih hab hbc

instance : IsTotal String StrLe := ⟨fun a b => charsLe_total a.data b.data⟩

instance : IsTrans String StrLe := ⟨fun _ _ _ => charsLe_trans⟩

/-- Lexicographic ascending sort used to model ORDER BY route_short_name. -/
def sortStrs (l : List String) : List String := List.insertionSort StrLe l

/-! ## RawPositionSource (Redis) and the snapshot refresh pipeline -/

/-- Hash contents of one Redis key: field/value pairs with unique fields. -/
abbrev RHash := List (String × String)

/-- The keyed store: one hash per vehicle key, one sorted set (member, score)
per track key. -/
structure RedisStore where
  hashes : List (String × RHash)
  zsets : List (String × List (String × Int))

/-- hgetall: the stored hash, or empty when the key is absent. -/
def hgetall (store : RedisStore) (key : String) : RHash :=
  (store.hashes.lookup key).getD []

/-- dict.get(field) on a fetched hash. -/
def hget (data : RHash) (field : String) : Option String :=
  data.lookup field

/-- dict.get(field, default). -/
def hgetD (data : RHash) (field dflt : String) : String :=
  (hget data field).getD dflt

/-- float(data.get(field, 0)): a missing field is the int 0, which converts
to 0.0; a present field is a string fed to float(), where failure raises
ValueError. -/
def floatField (data : RHash) (field : String) : Option Rat :=
  match hget data field with
  | none => some 0
  | some s => pyFloat s

/-- Compact snapshot projection of one vehicle (the dict appended to
`vehicles` in fetch_and_cache_vehicles). -/
structure VehicleEntry where
  id : String
  lat : Rat
  lng : Rat
  rsn : String
  lp : String
  tid : String
  br : String
deriving Repr, DecidableEq

/-- Loop body of fetch_and_cache_vehicles for one key: skip empty hashes,
skip status ≠ "active", skip coordinate parse failures (the caught
ValueError/TypeError), skip records whose parsed latitude or longitude is
falsy (zero); otherwise build the projection. -/
def vehicleOfKV (key : String) (data : RHash) : Option VehicleEntry :=
  if data.isEmpty then none
  else
    let vehicle_id := vidOf key
    if hget data "status" ≠ some "active" then none
    else
      match floatField data "latitude", floatField data "longitude" with
      | some lat, some lng =>
        if lat ≠ 0 ∧ lng ≠ 0 then
          some
            { id := vehicle_id
              lat := lat
              lng := lng
              rsn := hgetD data "route_short_name" "N/A"
              lp := hgetD data "license_plate" ""
              tid := hgetD data "trip_id" ""
              br := (hget data "two_shape_bearing").getD (hgetD data "bearing" "0") }
        else none
      | _, _ => none

/-- Backend access during one refresh cycle, with each operation allowed to
fail: keysE is the result of KEYS vehicle:* (already glob-filtered), and
hgetallE fetches one hash.  Exceptions are modelled as `Except.error`. -/
structure FallibleSource where
  keysE : Except String (List String)
  hgetallE : String → Except String RHash

/-- An infallible source reading from a concrete store; keys enumerates the
hash and sorted-set key spaces, glob-filtered to the "vehicle:" prefix. -/
def srcOfStore (store : RedisStore) : FallibleSource where
  keysE := .ok ((store.hashes.map Prod.fst ++ store.zsets.map Prod.fst).filter
    (fun k => strStartsWith k "vehicle:"))
  hgetallE := fun k => .ok (hgetall store k)

/-- The non-track vehicle keys the refresh loop iterates over. -/
def liveKeys (store : RedisStore) : List String :=
  ((store.hashes.map Prod.fst ++ store.zsets.map Prod.fst).filter
    (fun k => strStartsWith k "vehicle:")).filter
    (fun k => !strContains k ":track")

/-- Outcome of one call to fetch_and_cache_vehicles: the value of the
vehicle_cache global afterwards, the payload broadcast by sio.emit (none
when no emit happened), and the message printed by the except handler. -/
structure CycleResult where
  cache : List VehicleEntry
  published : Option (List VehicleEntry)
  errorLogged : Option String
deriving Repr, DecidableEq

/-- The fetch loop: hgetall each key in order, aborting the whole cycle on
the first backend error, otherwise collecting the surviving projections. -/
def collectVehicles (hg : String → Except String RHash) : List String → Except String (List VehicleEntry)
  | [] => .ok []
  | k :: ks =>
    match hg k with
    | .error e => .error e
    | .ok data =>
      match collectVehicles hg ks with
      | .error e => .error e
      | .ok vs =>
        match vehicleOfKV k data with
        | some v => .ok (v :: vs)
        | none => .ok vs

/-- Embedding of fetch_and_cache_vehicles.  `prev` is the vehicle_cache
before the call.  The try/except wrapping the body makes any backend error
leave the cache untouched, publish nothing, and log; the early return on an
empty key set installs the empty cache without publishing. -/
def refreshCycle (src : FallibleSource) (prev : List VehicleEntry) : CycleResult :=
  match src.keysE with
  | .error e => { cache := prev, published := none, errorLogged := some e }
  | .ok allKeys =>
    let keys := allKeys.filter (fun k => !strContains k ":track")
    if keys.isEmpty then { cache := [], published := none, errorLogged := none }
    else
      match collectVehicles src.hgetallE keys with
      | .error e => { cache := prev, published := none, errorLogged := some e }
      | .ok vehicles =>
        { cache := vehicles, published := some vehicles, errorLogged := none }

/-- Snapshot produced by a refresh against a healthy store. -/
def fetchVehicles (store : RedisStore) : List VehicleEntry :=
  (refreshCycle (srcOfStore store) []).cache

/-- Did some backend fetch (key enumeration, or any hgetall the loop would
reach) fail this cycle? -/
def fetchError (src : FallibleSource) : Bool :=
  match src.keysE with
  | .error _ => true
  | .ok allKeys =>
    (allKeys.filter (fun k => !strContains k ":track")).any
      (fun k => match src.hgetallE k with | .error _ => true | .ok _ => false)

/-! ## Request handlers: vehicle detail, stop detail -/

/-- fastapi.HTTPException as raised by the handlers. -/
structure HTTPException where
  status : Nat
  detail : String
deriving Repr, DecidableEq

/-- Full detail dict returned by get_vehicle_details. -/
structure VehicleDetail where
  id : String
  lat : Rat
  lng : Rat
  lp : String
  r : String
  rsn : String
  rln : String
  s : String
  sn : String
  cs : String
  th : String
  sp : String
  br : String
  ts : String
  lu : String
  tid : String
  di : String
  sst : String
  set : String
  ast : String
deriving Repr, DecidableEq

/-- Embedding of GET /api/vehicles/{vehicle_id}: 404 on an empty hash, 500
when float() raises on a present latitude/longitude (the generic except
branch), otherwise the full projection with missing coordinates defaulting
to 0.0. -/
def get_vehicle_details (store : RedisStore) (vehicle_id : String) :
    Except HTTPException VehicleDetail :=
  let data := hgetall store ("vehicle:" ++ vehicle_id)
  if data.isEmpty then .error ⟨404, "Vehicle not found"⟩
  else
    match floatField data "latitude", floatField data "longitude" with
    | some lat, some lng =>
      .ok
        { id := vehicle_id
          lat := lat
          lng := lng
          lp := hgetD data "license_plate" ""
          r := hgetD data "route_id" "N/A"
          rsn := hgetD data "route_short_name" "N/A"
          rln := hgetD data "route_long_name" ""
          s := hgetD data "stop_id" "N/A"
          sn := hgetD data "stop_name" ""
          cs := hgetD data "current_status" ""
          th := hgetD data "trip_headsign" ""
          sp := hgetD data "speed" ""
          br := (hget data "two_shape_bearing").getD (hgetD data "bearing" "")
          ts := hgetD data "timestamp" ""
          lu := hgetD data "last_updated" ""
          tid := hgetD data "trip_id" ""
          di := hgetD data "direction_id" ""
          sst := hgetD data "scheduled_start_time" ""
          set := hgetD data "scheduled_end_time" ""
          ast := hgetD data "actual_start_time" "" }
    | _, _ => .error ⟨500, "Failed to fetch vehicle details"⟩

/-- Detail dict cached per stop by load_and_cache_stops. -/
structure StopDetail where
  stop_id : String
  stop_name : String
  routes : String
deriving Repr, DecidableEq

/-- Embedding of GET /api/stops/{stop_id}: dictionary lookup in the cached
catalog, 404 when the id is absent. -/
def get_stop_details (cache : List (String × StopDetail)) (stop_id : String) :
    Except HTTPException StopDetail :=
  match cache.lookup stop_id with
  | none => .error ⟨404, "Stop not found"⟩
  | some d => .ok d

/-! ## ReferenceCatalog (PostgreSQL) and the SQL queries -/

structure StopRow where
  stop_id : String
  stop_name : String
  stop_lat : Option Rat
  stop_lon : Option Rat
deriving Repr, DecidableEq

structure StopTimeRow where
  trip_id : String
  stop_id : String
  stop_sequence : Nat
deriving Repr, DecidableEq

structure TripRow where
  trip_id : String
  route_id : String
  shape_id : Option String
  direction_id : String
deriving Repr, DecidableEq

structure RouteRow where
  route_id : String
  route_short_name : String
deriving Repr, DecidableEq

structure ShapeRow where
  shape_id : String
  shape_pt_lat : Rat
  shape_pt_lon : Rat
  shape_pt_sequence : Nat
deriving Repr, DecidableEq

/-- The relational store, with bag (multiset) semantics per table. -/
structure Catalog where
  stops : List StopRow
  stop_times : List StopTimeRow
  trips : List TripRow
  routes : List RouteRow
  shapes : List ShapeRow

/-- Route short names serving a stop, with the multiplicity of the
stop_times → trips → routes join: the non-null values aggregated by
STRING_AGG in the load_and_cache_stops query. -/
def servingRouteNames (cat : Catalog) (sid : String) : List String :=
  (cat.stop_times.filter (fun st => st.stop_id == sid)).flatMap (fun st =>
    (cat.trips.filter (fun t => t.trip_id == st.trip_id)).flatMap (fun t =>
      (cat.routes.filter (fun r => r.route_id == t.route_id)).map
        (fun r => r.route_short_name)))

/-- STRING_AGG(DISTINCT route_short_name, ', ' ORDER BY route_short_name),
with SQL NULL for an empty group materialised as the empty string by the
`row['routes'] or ''` in the handler. -/
def stopRouteLabel (cat : Catalog) (sid : String) : String :=
  String.intercalate ", " (sortStrs (servingRouteNames cat sid).dedup)

/-- Entry of stops_cache (the map-rendering list view). -/
structure StopOut where
  id : String
  lat : Rat
  lng : Rat
  routes : String
deriving Repr, DecidableEq

/-- List view built by load_and_cache_stops: stops lacking a coordinate are
excluded by the WHERE clause. -/
def load_stops (cat : Catalog) : List StopOut :=
  cat.stops.filterMap (fun s =>
    match s.stop_lat, s.stop_lon with
    | some la, some lo =>
      some { id := s.stop_id, lat := la, lng := lo, routes := stopRouteLabel cat s.stop_id }
    | _, _ => none)

/-- Dictionary view built by load_and_cache_stops (stop_details_cache). -/
def load_stop_details (cat : Catalog) : List (String × StopDetail) :=
  cat.stops.filterMap (fun s =>
    if s.stop_lat.isSome && s.stop_lon.isSome then
      some (s.stop_id,
        { stop_id := s.stop_id, stop_name := s.stop_name,
          routes := stopRouteLabel cat s.stop_id })
    else none)

/-! ## Shapes-for-route query -/

/-- Rows of the trips ⋈ routes ⋈ shapes join in the direction-specific
shape-selection query of get_shapes_for_route; the COUNT aggregated per
shape_id counts exactly these rows, so a shape used by several trips is
counted once per trip. -/
def shapeJoinRows (cat : Catalog) (rsn dir : String) : List (TripRow × RouteRow × ShapeRow) :=
  cat.trips.flatMap (fun t =>
    cat.routes.flatMap (fun r =>
      cat.shapes.flatMap (fun s =>
        if t.route_id == r.route_id && r.route_short_name == rsn
            && t.shape_id == some s.shape_id && t.direction_id == dir
        then [(t, r, s)] else [])))

/-- Shape ids appearing in the join (the GROUP BY groups). -/
def candidateShapes (cat : Catalog) (rsn dir : String) : List String :=
  ((shapeJoinRows cat rsn dir).map (fun x => x.2.2.shape_id)).dedup

/-- COUNT(s.shape_pt_sequence) for one GROUP BY shape_id group. -/
def groupCount (cat : Catalog) (rsn dir : String) (sid : String) : Nat :=
  ((shapeJoinRows cat rsn dir).map (fun x => x.2.2.shape_id)).count sid

/-- ORDER BY point_count DESC LIMIT 1: some shape of maximal count.  The
backend leaves the choice among tied groups unspecified; the model takes
the earliest-listed maximum. -/
def argmaxCount (f : String → Nat) : List String → Option String
  | [] => none
  | x :: xs =>
    match argmaxCount f xs with
    | none => some x
    | some y => if f x < f y then some y else some x

def bestShape (cat : Catalog) (rsn dir : String) : Option String :=
  argmaxCount (groupCount cat rsn dir) (candidateShapes cat rsn dir)

/-- Point list of one shape, ordered by shape_pt_sequence (the per-shape
points query). -/
def shapePoints (cat : Catalog) (sid : String) : List (List Rat) :=
  (List.insertionSort (fun a b => a.shape_pt_sequence ≤ b.shape_pt_sequence)
    (cat.shapes.filter (fun s => s.shape_id == sid))).map
    (fun s => [s.shape_pt_lat, s.shape_pt_lon])

/-- Direction-tagged point list returned by get_shapes_for_route. -/
structure ShapeOut where
  points : List (List Rat)
  direction : Nat
deriving Repr, DecidableEq

/-- One direction's contribution: fetch the winning shape, then its points;
append nothing when the query finds no shape or no points. -/
def directionShape (cat : Catalog) (rsn dir : String) (dirTag : Nat) : List ShapeOut :=
  match bestShape cat rsn dir with
  | none => []
  | some sid =>
    let pts := shapePoints cat sid
    if pts.isEmpty then [] else [{ points := pts, direction := dirTag }]

/-- Embedding of GET /api/shapes/route/{route_short_name}: outbound
(direction 0) then inbound (direction 1). -/
def get_shapes_for_route (cat : Catalog) (rsn : String) : List ShapeOut :=
  directionShape cat rsn "0" 0 ++ directionShape cat rsn "1" 1

/-! ## Vehicle track endpoint

redis-py returns ZRANGE ... WITHSCORES as a list of (member, score) tuples,
while the handler iterates track_data as a flat member/score list; the
Python value universe reaching json.loads / int is therefore modelled
explicitly. -/

/-- Python values appearing in the track_data list. -/
inductive PyVal
  | str (s : String)
  | pair (member : String) (score : Int)
deriving Repr, DecidableEq

/-- Exceptions of the track loop.  JSONDecodeError, KeyError and ValueError
are caught by the inner handler; TypeError and IndexError are not. -/
inductive PyErr
  | typeError
  | jsonDecodeError
  | keyError
  | valueError
  | indexError
deriving Repr, DecidableEq

def skipWs (cs : List Char) : List Char :=
  cs.dropWhile isWsChar

/-- Quoted JSON string (escape sequences outside the model). -/
def parseJString : List Char → Option (String × List Char)
  | '"' :: rest =>
    let content := rest.takeWhile (fun c => c != '"')
    match rest.dropWhile (fun c => c != '"') with
    | '"' :: tail => some (String.mk content, tail)
    | _ => none
  | _ => none

/-- Bare JSON scalar token (a number), kept as its source text. -/
def parseBare (cs : List Char) : Option (String × List Char) :=
  let tok := cs.takeWhile (fun c => c != ',' && c != '\x7d' && !isWsChar c)
  if tok.isEmpty then none else some (String.mk tok, cs.drop tok.length)

def parseJValue (cs : List Char) : Option (String × List Char) :=
  match parseJString cs with
  | some r => some r
  | none => parseBare cs

/-- Comma-separated key/value members of a JSON object. -/
def parsePairs : Nat → List Char → Option (List (String × String) × List Char)
  | 0, _ => none
  | fuel + 1, cs =>
    match parseJString (skipWs cs) with
    | none => none
    | some (k, cs1) =>
      match skipWs cs1 with
      | ':' :: cs2 =>
        match parseJValue (skipWs cs2) with
        | none => none
        | some (v, cs3) =>
          match skipWs cs3 with
          | ',' :: cs4 =>
            match parsePairs fuel cs4 with
            | some (ps, rem) => some ((k, v) :: ps, rem)
            | none => none
          | rem => some ([(k, v)], rem)
      | _ => none

/-- Embedding of json.loads restricted to flat JSON objects with string or
plain scalar values, value text kept verbatim; anything else is a
JSONDecodeError.  This is the shape of the track entries described by the
external interface ({latitude, longitude} objects). -/
def jsonObjLoads (s : String) : Except PyErr (List (String × String)) :=
  match skipWs s.data with
  | '\x7b' :: rest =>
    match skipWs rest with
    | '\x7d' :: tail =>
      if (skipWs tail).isEmpty then .ok [] else .error .jsonDecodeError
    | body =>
      match parsePairs (body.length + 1) body with
      | some (ps, rem) =>
        match skipWs rem with
        | '\x7d' :: tail =>
          if (skipWs tail).isEmpty then .ok ps else .error .jsonDecodeError
        | _ => .error .jsonDecodeError
      | none => .error .jsonDecodeError
  | _ => .error .jsonDecodeError

/-- json.loads on a Python value: loading anything but a string (such as the
(member, score) tuple redis-py hands back) raises TypeError. -/
def pyJsonLoads : PyVal → Except PyErr (List (String × String))
  | .str s => jsonObjLoads s
  | .pair _ _ => .error .typeError

/-- int() on a Python value: integer literal strings convert, other strings
raise ValueError, a tuple raises TypeError. -/
def pyInt : PyVal → Except PyErr Int
  | .str s =>
    match pyIntOfString s with
    | some n => .ok n
    | none => .error .valueError
  | .pair _ _ => .error .typeError

/-- One parsed track position. -/
structure TrackPoint where
  lat : Rat
  lng : Rat
  timestamp : Int
deriving Repr, DecidableEq

/-- Body of one track-loop iteration: track_data[i] = x and track_data[i+1]
(absent when i is the last index, in which case touching it raises
IndexError).  `.ok none` is a caught-and-skipped entry; `.error` is an
exception escaping to the outer handler. -/
def trackEntry (x : PyVal) (next : Option PyVal) : Except PyErr (Option TrackPoint) :=
  match pyJsonLoads x with
  | .error .typeError => .error .typeError
  | .error _ => .ok none
  | .ok position =>
    match position.lookup "latitude" with
    | none => .ok none
    | some slat =>
      match pyFloat slat with
      | none => .ok none
      | some lat =>
        match position.lookup "longitude" with
        | none => .ok none
        | some slng =>
          match pyFloat slng with
          | none => .ok none
          | some lng =>
            match next with
            | none => .error .indexError
            | some y =>
              match pyInt y with
              | .error .typeError => .error .typeError
              | .error _ => .ok none
              | .ok ts => .ok (some { lat := lat, lng := lng, timestamp := ts })

/-- The for-loop of get_vehicle_track over even indices of track_data. -/
def trackLoop : List PyVal → Except PyErr (List TrackPoint)
  | [] => .ok []
  | [x] =>
    match trackEntry x none with
    | .error e => .error e
    | .ok none => .ok []
    | .ok (some tp) => .ok [tp]
  | x :: y :: rest =>
    match trackEntry x (some y) with
    | .error e => .error e
    | .ok none => trackLoop rest
    | .ok (some tp) =>
      match trackLoop rest with
      | .error e => .error e
      | .ok tps => .ok (tp :: tps)

/-- Embedding of GET /api/vehicles/{vehicle_id}/track on the (member,
score) pairs stored for the vehicle, as returned ascending by score from
ZRANGE WITHSCORES; an uncaught loop exception becomes the generic 500. -/
def get_vehicle_track (trackData : List (String × Int)) :
    Except HTTPException (List TrackPoint) :=
  let track_data := trackData.map (fun p => PyVal.pair p.1 p.2)
  if track_data.isEmpty then .ok []
  else
    match trackLoop track_data with
    | .ok track => .ok track
    | .error _ => .error ⟨500, "Failed to fetch vehicle track"⟩

/-! ## Socket.IO layer -/

/-- One sio.emit call: a vehicles snapshot push or a userCount broadcast,
with room = some sid for a single-observer send and none for a broadcast
to every observer. -/
inductive Emit
  | vehicles (room : Option String) (payload : List VehicleEntry)
  | userCount (room : Option String) (count : Nat)
deriving Repr, DecidableEq

/-- Long-lived server state: the vehicle_cache global and the list of
clients currently registered in the Socket.IO manager. -/
structure SrvState where
  vehicle_cache : List VehicleEntry
  connected : List String

/-- Externally triggered server events. -/
inductive SrvEvent
  | connect (sid : String)
  | disconnect (sid : String)
  | refresh (src : FallibleSource)

/-- Embedding of len(sio.manager.rooms.get('/').keys()) with an empty dict
default: the manager keeps one room per registered client (the client's own
sid room) PLUS the namespace-wide broadcast room every client is entered
into, and it prunes empty rooms, so the namespace entry is absent when no
client is connected.  The rooms table is therefore one larger than the
connection count whenever anyone is connected. -/
def roomsLen (registered : List String) : Nat :=
  if registered.isEmpty then 0 else registered.length + 1

/-- One event step.  The transport enters a connecting client into both its
sid room and the broadcast room before invoking the connect handler, so the
handler pushes the current cache to the new observer's own room and
broadcasts the rooms-table size with the new client already counted.  On
disconnect the handler runs before the manager removes the client
(pre_disconnect keeps the data structures intact while the handler is
invoked), so the departing observer is still counted.  A refresh runs
fetch_and_cache_vehicles, whose emit (when it happens) is a broadcast. -/
def stepServer (st : SrvState) : SrvEvent → SrvState × List Emit
  | .connect sid =>
    let conns := st.connected ++ [sid]
    (⟨st.vehicle_cache, conns⟩,
      [.vehicles (some sid) st.vehicle_cache, .userCount none (roomsLen conns)])
  | .disconnect sid =>
    (⟨st.vehicle_cache, st.connected.erase sid⟩,
      [.userCount none (roomsLen st.connected)])
  | .refresh src =>
    let r := refreshCycle src st.vehicle_cache
    (⟨r.cache, st.connected⟩,
      match r.published with
      | some p => [.vehicles none p]
      | none => [])

/-- State after a sequence of events. -/
def runState (st : SrvState) (evs : List SrvEvent) : SrvState :=
  evs.foldl (fun s e => (stepServer s e).1) st

/-- Snapshot of the latest completed refresh in an event sequence (the
initial cache when none): the reference against which connect pushes are
compared. -/
def latestSnapshot (cache0 : List VehicleEntry) : List SrvEvent → List VehicleEntry
  | [] => cache0
  | .refresh src :: evs => latestSnapshot (refreshCycle src cache0).cache evs
  | .connect _ :: evs => latestSnapshot cache0 evs
  | .disconnect _ :: evs => latestSnapshot cache0 evs

/-! ## Specification-side predicates -/

/-- Filter law of the specification, stated in its words: the record's
status field equals "active", both coordinate fields parse as numbers, and
neither parsed value is zero. -/
def includedSpec (data : RHash) : Prop :=
  hget data "status" = some "active" ∧
  (∃ s q, hget data "latitude" = some s ∧ pyFloat s = some q ∧ q ≠ 0) ∧
  (∃ s q, hget data "longitude" = some s ∧ pyFloat s = some q ∧ q ≠ 0)

/-! ## Helper lemmas -/

theorem lookup_eq_of_mem {β : Type} {key : String} {v : β}
    {l : List (String × β)} (hnd : (l.map Prod.fst).Nodup)
    (hmem : (key, v) ∈ l) : l.lookup key = some v := by
  induction l with
  | nil => cases hmem
  | cons p t ih =>
    obtain ⟨a, b⟩ := p
    have hnd' : a ∉ t.map Prod.fst ∧ (t.map Prod.fst).Nodup :=
      List.nodup_cons.mp (by simpa using hnd)
    rcases List.mem_cons.mp hmem with h | h
    · cases h
      simp [List.lookup]
    · have hne : key ≠ a := by
        intro he
        exact hnd'.1 (he ▸ List.mem_map.mpr ⟨(key, v), h, rfl⟩)
      simp only [List.lookup]
      rw [show (key == a) = false from beq_eq_false_iff_ne.mpr hne]
      exact ih hnd'.2 h

theorem collectVehicles_ok (g : String → RHash) (ks : List String) :
    collectVehicles (fun k => .ok (g k)) ks
      = .ok (ks.filterMap (fun k => vehicleOfKV k (g k))) := by
  induction ks with
  | nil => rfl
  | cons k t ih =>
    simp only [collectVehicles, ih, List.filterMap_cons]
    cases vehicleOfKV k (g k) <;> rfl

theorem refreshCycle_store_cache (store : RedisStore) (prev : List VehicleEntry) :
    (refreshCycle (srcOfStore store) prev).cache
      = (liveKeys store).filterMap (fun k => vehicleOfKV k (hgetall store k)) := by
  show (if (liveKeys store).isEmpty then _ else _ : CycleResult).cache = _
  by_cases h : (liveKeys store).isEmpty
  · rw [if_pos h, List.isEmpty_iff.mp h]
    rfl
  · rw [if_neg h]
    rw [show (srcOfStore store).hgetallE = fun k => .ok (hgetall store k) from rfl,
      collectVehicles_ok]
    rfl

theorem vehicleOfKV_isSome_iff (key : String) (data : RHash) :
    (∃ v, vehicleOfKV key data = some v) ↔ includedSpec data := by
  constructor
  · rintro ⟨v, hv⟩
    unfold vehicleOfKV at hv
    by_cases hemp : data.isEmpty = true
    · simp [hemp] at hv
    · by_cases hst : hget data "status" = some "active"
      · rcases hla : floatField data "latitude" with _ | la
        · simp [hemp, hst, hla] at hv
        · rcases hln : floatField data "longitude" with _ | ln
          · simp [hemp, hst, hla, hln] at hv
          · by_cases hz : la ≠ 0 ∧ ln ≠ 0
            · refine ⟨hst, ?_, ?_⟩
              · rcases hs : hget data "latitude" with _ | s
                · exfalso
                  unfold floatField at hla
                  rw [hs] at hla
                  cases hla
                  exact hz.1 rfl
                · unfold floatField at hla
                  rw [hs] at hla
                  exact ⟨s, la, rfl, hla, hz.1⟩
              · rcases hs : hget data "longitude" with _ | s
                · exfalso
                  unfold floatField at hln
                  rw [hs] at hln
                  cases hln
                  exact hz.2 rfl
                · unfold floatField at hln
                  rw [hs] at hln
                  exact ⟨s, ln, rfl, hln, hz.2⟩
            · simp [hemp, hst, hla, hln, hz] at hv
      · simp [hemp, hst] at hv
  · rintro ⟨hst, ⟨sa, la, hsa, hpa, hza⟩, ⟨sb, ln, hsb, hpb, hzb⟩⟩
    have hemp : data.isEmpty = false := by
      cases data with
      | nil => cases hsa
      | cons _ _ => rfl
    have hla : floatField data "latitude" = some la := by
      unfold floatField
      rw [hsa]
      exact hpa
    have hln : floatField data "longitude" = some ln := by
      unfold floatField
      rw [hsb]
      exact hpb
    refine ⟨{ id := vidOf key, lat := la, lng := ln,
              rsn := hgetD data "route_short_name" "N/A",
              lp := hgetD data "license_plate" "",
              tid := hgetD data "trip_id" "",
              br := (hget data "two_shape_bearing").getD (hgetD data "bearing" "0") }, ?_⟩
    unfold vehicleOfKV
    rw [hemp]
    simp only [Bool.false_eq_true, if_false]
    rw [if_neg (show ¬hget data "status" ≠ some "active" from fun hc => hc hst), hla, hln]
    exact if_pos ⟨hza, hzb⟩

/-! ## C1: the snapshot filter law -/

/-- C1: a record of RawPositionSource contributes its projection to the
snapshot built by the refresh operation if and only if its status field is
"active", both coordinate fields parse as numbers, and neither parsed value
is zero; records failing any test are excluded (skipped without error). -/
theorem snapshot_filter_law (store : RedisStore) (key : String) (data : RHash)
    (hmem : (key, data) ∈ store.hashes)
    (hnodup : (store.hashes.map Prod.fst).Nodup)
    (hpre : strStartsWith key "vehicle:" = true)
    (htrack : strContains key ":track" = false) :
    (∃ v, vehicleOfKV key data = some v ∧ v ∈ fetchVehicles store) ↔ includedSpec data := by
  constructor
  · rintro ⟨v, hv, _⟩
    exact (vehicleOfKV_isSome_iff key data).mp ⟨v, hv⟩
  · intro hspec
    obtain ⟨v, hv⟩ := (vehicleOfKV_isSome_iff key data).mpr hspec
    have hget_eq : hgetall store key = data := by
      unfold hgetall
      rw [lookup_eq_of_mem hnodup hmem]
      rfl
    have hlive : key ∈ liveKeys store := by
      unfold liveKeys
      refine List.mem_filter.mpr ⟨List.mem_filter.mpr
        ⟨List.mem_append.mpr (Or.inl (List.mem_map_of_mem Prod.fst hmem)), hpre⟩, ?_⟩
      rw [htrack]
      rfl
    have hmemv : v ∈ fetchVehicles store := by
      unfold fetchVehicles
      rw [refreshCycle_store_cache]
      exact List.mem_filterMap.mpr ⟨key, hlive, by rw [hget_eq]; exact hv⟩
    exact ⟨v, hv, hmemv⟩

def w1data : RHash := [("status", "active"), ("latitude", "38.7"), ("longitude", "-9.1")]

def w1store : RedisStore := ⟨[("vehicle:42", w1data)], []⟩

/-- Witness for C1 at a concrete one-record store with an active record at
(38.7, -9.1). -/
theorem snapshot_filter_law_witness :
    ∃ v, vehicleOfKV "vehicle:42" w1data = some v ∧ v ∈ fetchVehicles w1store :=
  (snapshot_filter_law w1store "vehicle:42" w1data (by decide) (by decide)
      (by decide) (by decide)).mpr
    ⟨rfl, ⟨"38.7", mkRat 387 10, rfl, by decide, by decide⟩,
      ⟨"-9.1", mkRat (-91) 10, rfl, by decide, by decide⟩⟩

/-! ## C2: publication of the new snapshot -/

/-- C2 (amended): a completed refresh publishes the newly built snapshot
exactly when at least one live position key exists — the early return on an
empty key set installs the empty snapshot without publishing it. -/
theorem refresh_publishes_iff_live_keys (store : RedisStore) (prev : List VehicleEntry) :
    (refreshCycle (srcOfStore store) prev).published
      = if (liveKeys store).isEmpty then none
        else some ((refreshCycle (srcOfStore store) prev).cache) := by
  show (if (liveKeys store).isEmpty then _ else _ : CycleResult).published = _
  by_cases h : (liveKeys store).isEmpty
  · rw [if_pos h, if_pos h]
  · rw [if_neg h, if_neg h, refreshCycle_store_cache]
    rw [show (srcOfStore store).hgetallE = fun k => .ok (hgetall store k) from rfl,
      collectVehicles_ok]
    rfl

/-- C2 counterexample: on a store with no live position keys the refresh
completes without error and installs the empty snapshot, yet publishes
nothing — not the empty snapshot the claim requires. -/
theorem refresh_empty_keys_counterexample :
    (refreshCycle (srcOfStore ⟨[], []⟩) []).cache = [] ∧
    (refreshCycle (srcOfStore ⟨[], []⟩) []).errorLogged = none ∧
    (refreshCycle (srcOfStore ⟨[], []⟩) []).published = none ∧
    (refreshCycle (srcOfStore ⟨[], []⟩) []).published ≠ some [] ∧
    (stepServer ⟨[], ["observer"]⟩ (.refresh (srcOfStore ⟨[], []⟩))).2 = [] := by
  decide

/-! ## C3: failure policy of the refresh cycle -/

theorem collectVehicles_error_of_any (hg : String → Except String RHash)
    (ks : List String)
    (h : (ks.any fun k => match hg k with | .error _ => true | .ok _ => false) = true) :
    ∃ e, collectVehicles hg ks = .error e := by
  induction ks with
  | nil => cases h
  | cons k t ih =>
    cases hk : hg k with
    | error e =>
      refine ⟨e, ?_⟩
      unfold collectVehicles
      rw [hk]
    | ok data =>
      have ht : (t.any fun k => match hg k with | .error _ => true | .ok _ => false) = true := by
        simp only [List.any_cons, hk, Bool.false_or] at h
        exact h
      obtain ⟨e, he⟩ := ih ht
      refine ⟨e, ?_⟩
      unfold collectVehicles
      rw [hk, he]

/-- C3: when any backend fetch fails during a refresh cycle, the cycle
aborts with the previous snapshot left unchanged, publishes nothing, and
logs the error; the cycle itself is a total function, so no exception
escapes to the periodic scheduling loop. -/
theorem refresh_error_aborts (src : FallibleSource) (prev : List VehicleEntry)
    (h : fetchError src = true) :
    (refreshCycle src prev).cache = prev ∧
    (refreshCycle src prev).published = none ∧
    (refreshCycle src prev).errorLogged ≠ none := by
  cases hk : src.keysE with
  | error e =>
    simp [refreshCycle, hk]
  | ok allKeys =>
    simp only [fetchError, hk] at h
    obtain ⟨e, he⟩ := collectVehicles_error_of_any src.hgetallE _ h
    have hne : (allKeys.filter fun k => !strContains k ":track").isEmpty = false := by
      cases hc : allKeys.filter fun k => !strContains k ":track" with
    | nil => rw [hc] at h; cases h
    | cons a t => rfl
    simp [refreshCycle, hk, hne, he]

def w3prev : List VehicleEntry :=
  [{ id := "7", lat := 1, lng := 2, rsn := "N/A", lp := "", tid := "", br := "0" }]

def w3src : FallibleSource := ⟨.error "connection refused", fun _ => .ok []⟩

/-- Witness for C3: a key-enumeration failure leaves a nonempty prior
snapshot untouched, publishes nothing, and logs. -/
theorem refresh_error_aborts_witness :
    (refreshCycle w3src w3prev).cache = w3prev ∧
    (refreshCycle w3src w3prev).published = none ∧
    (refreshCycle w3src w3prev).errorLogged ≠ none :=
  refresh_error_aborts w3src w3prev (by decide)

/-! ## C8: idempotence of the refresh on a fixed store -/

/-- C8: refreshing twice against unchanged RawPositionSource contents gives
a second snapshot identical to the first. -/
theorem refresh_idempotent (store : RedisStore) (prev : List VehicleEntry) :
    (refreshCycle (srcOfStore store)
        ((refreshCycle (srcOfStore store) prev).cache)).cache
      = (refreshCycle (srcOfStore store) prev).cache := by
  rw [refreshCycle_store_cache, refreshCycle_store_cache]

/-! ## C9: broadcast on connect -/

theorem runState_cache (evs : List SrvEvent) (st : SrvState) :
    (runState st evs).vehicle_cache = latestSnapshot st.vehicle_cache evs := by
  induction evs generalizing st with
  | nil => rfl
  | cons e t ih =>
    cases e with
    | connect sid => exact ih ⟨st.vehicle_cache, st.connected ++ [sid]⟩
    | disconnect sid => exact ih ⟨st.vehicle_cache, st.connected.erase sid⟩
    | refresh src => exact ih ⟨(refreshCycle src st.vehicle_cache).cache, st.connected⟩

theorem roomsLen_append_one (l : List String) (s : String) :
    roomsLen (l ++ [s]) = l.length + 2 := by
  unfold roomsLen
  rw [if_neg (by simp)]
  simp

/-- C9 (amended): after any event history, a connecting observer is sent
exactly one snapshot push, addressed to its own room alone, whose payload
is the snapshot of the latest completed refresh, followed by one broadcast
of the rooms-table size — the connection count including the new observer
PLUS the namespace-wide broadcast room, i.e. prior connections + 2 — and
nothing else. -/
theorem connect_pushes_snapshot (cache0 : List VehicleEntry) (conns0 : List String)
    (evs : List SrvEvent) (sid : String) :
    (stepServer (runState ⟨cache0, conns0⟩ evs) (.connect sid)).2
      = [.vehicles (some sid) (latestSnapshot cache0 evs),
         .userCount none ((runState ⟨cache0, conns0⟩ evs).connected.length + 2)] := by
  simp only [stepServer]
  rw [runState_cache, roomsLen_append_one]

/-- C9 counterexample: the first observer connecting to a fresh server
leaves exactly one observer connected, yet the broadcast userCount is 2
(the observer's sid room plus the broadcast room), not the connection
count 1 the claim asserts. -/
theorem connect_count_counterexample :
    (stepServer ⟨[], []⟩ (.connect "alice")).1.connected = ["alice"] ∧
    (stepServer ⟨[], []⟩ (.connect "alice")).2
      = [.vehicles (some "alice") [], .userCount none 2] ∧
    (stepServer ⟨[], []⟩ (.connect "alice")).2
      ≠ [.vehicles (some "alice") [], .userCount none 1] := by
  decide

/-! ## C6: absent entities signal not-found -/

/-- C6: a vehicle id whose stored hash is empty yields the explicit 404
error, and a stop id absent from the catalog dictionary yields the explicit
404 error — in both cases an `Except.error`, never a structurally-valid
`.ok` object. -/
theorem absent_ids_not_found :
    (∀ (store : RedisStore) (vid : String),
      hgetall store ("vehicle:" ++ vid) = [] →
        get_vehicle_details store vid = .error ⟨404, "Vehicle not found"⟩) ∧
    (∀ (cache : List (String × StopDetail)) (sid : String),
      cache.lookup sid = none →
        get_stop_details cache sid = .error ⟨404, "Stop not found"⟩) := by
  constructor
  · intro store vid h
    simp [get_vehicle_details, h]
  · intro cache sid h
    simp [get_stop_details, h]

/-- Witness for C6 on an empty store and an empty catalog. -/
theorem absent_ids_not_found_witness :
    get_vehicle_details ⟨[], []⟩ "ghost" = .error ⟨404, "Vehicle not found"⟩ ∧
    get_stop_details [] "nowhere" = .error ⟨404, "Stop not found"⟩ :=
  ⟨absent_ids_not_found.1 ⟨[], []⟩ "ghost" rfl, absent_ids_not_found.2 [] "nowhere" rfl⟩

/-! ## C7: the serving-route label -/

/-- C7: every stop detail in the built catalog carries as its routes label
the comma-space join of a list of route names that is lexicographically
sorted, duplicate-free, and contains exactly the stop's serving route short
names. -/
theorem stop_label_sorted_dedup (cat : Catalog) (sid : String) (d : StopDetail)
    (hmem : (sid, d) ∈ load_stop_details cat) :
    ∃ parts, d.routes = String.intercalate ", " parts ∧
      parts.Pairwise StrLe ∧ parts.Nodup ∧
      ∀ n, n ∈ parts ↔ n ∈ servingRouteNames cat d.stop_id := by
  obtain ⟨s, hs, hd⟩ := List.mem_filterMap.mp hmem
  by_cases hc : (s.stop_lat.isSome && s.stop_lon.isSome) = true
  · rw [if_pos hc] at hd
    simp only [Option.some.injEq, Prod.mk.injEq] at hd
    obtain ⟨h1, h2⟩ := hd
    subst h2
    refine ⟨sortStrs (servingRouteNames cat s.stop_id).dedup, rfl, ?_, ?_, ?_⟩
    · exact List.sorted_insertionSort StrLe _
    · exact ((List.perm_insertionSort StrLe _).nodup_iff).mpr (List.nodup_dedup _)
    · intro n
      simp only [sortStrs]
      rw [(List.perm_insertionSort StrLe _).mem_iff, List.mem_dedup]
  · rw [if_neg hc] at hd
    cases hd

def w7cat : Catalog :=
  ⟨[⟨"X", "Central", some 1, some 2⟩],
   [⟨"t1", "X", 1⟩, ⟨"t2", "X", 2⟩, ⟨"t3", "X", 3⟩, ⟨"t4", "X", 4⟩],
   [⟨"t1", "r1", none, "0"⟩, ⟨"t2", "r2", none, "0"⟩, ⟨"t3", "r3", none, "0"⟩,
    ⟨"t4", "r2", none, "1"⟩],
   [⟨"r1", "B"⟩, ⟨"r2", "A"⟩, ⟨"r3", "C"⟩], []⟩

def w7detail : StopDetail := ⟨"X", "Central", "A, B, C"⟩

/-- Witness for C7: a stop served by routes B, A, C (A twice) carries the
label "A, B, C". -/
theorem stop_label_sorted_dedup_witness :
    (∃ parts, w7detail.routes = String.intercalate ", " parts ∧
      parts.Pairwise StrLe ∧ parts.Nodup ∧
      ∀ n, n ∈ parts ↔ n ∈ servingRouteNames w7cat w7detail.stop_id) ∧
    w7detail.routes = "A, B, C" :=
  ⟨stop_label_sorted_dedup w7cat "X" w7detail (by decide), by decide⟩

/-! ## C10: vehicle detail on non-empty hashes -/

/-- C10 (amended): the vehicle-detail operation succeeds for every id whose
stored hash is non-empty and whose latitude/longitude convert (a missing
field converts to 0.0), with no status or zero-coordinate filtering; a
present but unparsable coordinate instead raises ValueError inside the
generic handler and surfaces as the 500 internal error, not success. -/
theorem vehicle_details_ok (store : RedisStore) (vid : String) (la ln : Rat)
    (hne : hgetall store ("vehicle:" ++ vid) ≠ [])
    (hla : floatField (hgetall store ("vehicle:" ++ vid)) "latitude" = some la)
    (hln : floatField (hgetall store ("vehicle:" ++ vid)) "longitude" = some ln) :
    ∃ d, get_vehicle_details store vid = .ok d ∧ d.id = vid ∧ d.lat = la ∧ d.lng = ln := by
  have hemp : (hgetall store ("vehicle:" ++ vid)).isEmpty = false := by
    cases h : hgetall store ("vehicle:" ++ vid) with
    | nil => exact absurd h hne
    | cons a t => rfl
  simp only [get_vehicle_details]
  rw [hemp]
  simp only [Bool.false_eq_true, if_false]
  rw [hla, hln]
  exact ⟨_, rfl, rfl, rfl, rfl⟩

def w10store : RedisStore := ⟨[("vehicle:v7", [("status", "parked"), ("longitude", "5")])], []⟩

/-- Witness for C10: a non-active record with a missing latitude is served
in full, the missing latitude appearing as 0.0. -/
theorem vehicle_details_ok_witness :
    ∃ d, get_vehicle_details w10store "v7" = .ok d ∧ d.id = "v7" ∧ d.lat = 0 ∧ d.lng = 5 :=
  vehicle_details_ok w10store "v7" 0 5 (by decide) (by decide) (by decide)

def cex10store : RedisStore := ⟨[("vehicle:v1", [("latitude", "abc")])], []⟩

/-- C10 counterexample: a vehicle whose stored hash is non-empty but whose
latitude value does not parse gets the 500 internal error, not a detail
object, refuting success "regardless of coordinate values". -/
theorem vehicle_details_unparsable_counterexample :
    hgetall cex10store "vehicle:v1" ≠ [] ∧
    get_vehicle_details cex10store "v1" = .error ⟨500, "Failed to fetch vehicle details"⟩ := by
  decide

/-! ## C5: shape selection for a route -/

theorem argmaxCount_ne_none (f : String → Nat) (a : String) (t : List String) :
    argmaxCount f (a :: t) ≠ none := by
  unfold argmaxCount
  cases argmaxCount f t with
  | none => simp
  | some y => by_cases h : f a < f y <;> simp [h]

theorem argmaxCount_mem (f : String → Nat) (l : List String) (x : String)
    (h : argmaxCount f l = some x) : x ∈ l := by
  induction l generalizing x with
  | nil => cases h
  | cons a t ih =>
    unfold argmaxCount at h
    cases hr : argmaxCount f t with
    | none =>
      rw [hr] at h
      cases h
      exact List.mem_cons_self a t
    | some y =>
      rw [hr] at h
      have h' : (if f a < f y then some y else some a) = some x := h
      by_cases hf : f a < f y
      · rw [if_pos hf] at h'
        cases h'
        exact List.mem_cons_of_mem a (ih _ hr)
      · rw [if_neg hf] at h'
        cases h'
        exact List.mem_cons_self a t

theorem argmaxCount_le (f : String → Nat) (l : List String) (x : String)
    (h : argmaxCount f l = some x) : ∀ y ∈ l, f y ≤ f x := by
  induction l generalizing x with
  | nil => intro y hy; cases hy
  | cons a t ih =>
    intro y hy
    unfold argmaxCount at h
    cases hr : argmaxCount f t with
    | none =>
      rw [hr] at h
      cases h
      have ht : t = [] := by
        cases t with
        | nil => rfl
        | cons b t' => exact absurd hr (argmaxCount_ne_none f b t')
      subst ht
      rw [List.mem_singleton.mp hy]
    | some z =>
      rw [hr] at h
      have h' : (if f a < f z then some z else some a) = some x := h
      by_cases hf : f a < f z
      · rw [if_pos hf] at h'
        cases h'
        rcases List.mem_cons.mp hy with rfl | hy'
        · exact le_of_lt hf
        · exact ih x hr y hy'
      · rw [if_neg hf] at h'
        cases h'
        rcases List.mem_cons.mp hy with rfl | hy'
        · exact le_refl _
        · exact le_trans (ih z hr y hy') (le_of_not_lt hf)

theorem directionShape_cases (cat : Catalog) (rsn dir : String) (tag : Nat) :
    directionShape cat rsn dir tag = [] ∨
    ∃ pts, directionShape cat rsn dir tag = [{ points := pts, direction := tag }] := by
  unfold directionShape
  cases bestShape cat rsn dir with
  | none => left; rfl
  | some sid =>
    by_cases h : (shapePoints cat sid).isEmpty
    · left
      simp [h]
    · right
      exact ⟨shapePoints cat sid, by simp [h]⟩

def w5shapes : List ShapeRow :=
  (List.range 40).map (fun i => ⟨"S1", 0, 0, i⟩) ++ (List.range 10).map (fun i => ⟨"S2", 0, 0, i⟩)

def w5cat : Catalog :=
  ⟨[], [], [⟨"t1", "r1", some "S1", "0"⟩, ⟨"t2", "r1", some "S2", "0"⟩], [⟨"r1", "R"⟩], w5shapes⟩

/-- C5 (amended): for each direction the shapes-for-route query selects a
shape whose GROUP BY group has the greatest COUNT over the trips ⋈ shapes
join — the number of trips using the shape times its point count — and
returns at most one direction-tagged point list per direction; with exactly
one direction-0 trip on each shape, S1 (40 points) beats S2 (10 points). -/
theorem shapes_for_route_max_count :
    (∀ (cat : Catalog) (rsn dir sid : String), bestShape cat rsn dir = some sid →
      sid ∈ candidateShapes cat rsn dir ∧
      ∀ sid' ∈ candidateShapes cat rsn dir,
        groupCount cat rsn dir sid' ≤ groupCount cat rsn dir sid) ∧
    (∀ (cat : Catalog) (rsn : String) (d : Nat),
      ((get_shapes_for_route cat rsn).filter (fun e => e.direction == d)).length ≤ 1) ∧
    get_shapes_for_route w5cat "R" = [{ points := shapePoints w5cat "S1", direction := 0 }] := by
  refine ⟨?_, ?_, by decide⟩
  · intro cat rsn dir sid h
    exact ⟨argmaxCount_mem _ _ _ h, argmaxCount_le _ _ _ h⟩
  · intro cat rsn d
    unfold get_shapes_for_route
    rcases directionShape_cases cat rsn "0" 0 with h0 | ⟨p0, h0⟩ <;>
      rcases directionShape_cases cat rsn "1" 1 with h1 | ⟨p1, h1⟩ <;>
      rw [h0, h1]
    · simp
    · simpa using List.length_filter_le _ _
    · simpa using List.length_filter_le _ _
    · rw [List.filter_append]
      by_cases hd : d = 0
      · subst hd
        simp [List.filter]
      · have h0d : ((0 : Nat) == d) = false := beq_eq_false_iff_ne.mpr (Ne.symm hd)
        rw [show (List.filter (fun e => e.direction == d)
            [(⟨p0, 0⟩ : ShapeOut)]) = [] from by simp [List.filter, h0d]]
        simpa using List.length_filter_le (fun e : ShapeOut => e.direction == d) [⟨p1, 1⟩]

/-- Witness for C5 at the one-trip-per-shape catalog: S1 is selected for
direction 0 and dominates the only other candidate S2. -/
theorem shapes_for_route_max_count_witness :
    "S1" ∈ candidateShapes w5cat "R" "0" ∧
    ∀ sid' ∈ candidateShapes w5cat "R" "0",
      groupCount w5cat "R" "0" sid' ≤ groupCount w5cat "R" "0" "S1" :=
  shapes_for_route_max_count.1 w5cat "R" "0" "S1" (by decide)

def cex5cat : Catalog :=
  ⟨[], [],
   [⟨"t1", "r1", some "S1", "0"⟩, ⟨"t2", "r1", some "S2", "0"⟩, ⟨"t3", "r1", some "S2", "0"⟩,
    ⟨"t4", "r1", some "S2", "0"⟩, ⟨"t5", "r1", some "S2", "0"⟩, ⟨"t6", "r1", some "S2", "0"⟩],
   [⟨"r1", "R"⟩], w5shapes⟩

set_option maxRecDepth 8000 in
/-- C5 counterexample: a route whose direction-0 trips use S1 (40 points,
one trip) and S2 (10 points, five trips) returns S2 for direction 0 — the
COUNT is 5 × 10 = 50 join rows for S2 against 40 for S1 — refuting the
claim that such a route always returns S1. -/
theorem shapes_for_route_counterexample :
    get_shapes_for_route cex5cat "R" = [{ points := shapePoints cex5cat "S2", direction := 0 }] ∧
    shapePoints cex5cat "S2" ≠ shapePoints cex5cat "S1" ∧
    (shapePoints cex5cat "S1").length = 40 ∧ (shapePoints cex5cat "S2").length = 10 := by
  decide

/-! ## C4: the vehicle track endpoint -/

def cex4track : List (String × Int) :=
  [("\x7b\"latitude\": \"38.70\", \"longitude\": \"-9.10\"\x7d", 100),
   ("\x7b\"latitude\": \"38.71\", \"longitude\": \"-9.11\"\x7d", 200),
   ("corrupted", 300),
   ("\x7b\"latitude\": \"38.72\", \"longitude\": \"-9.12\"\x7d", 400),
   ("\x7b\"latitude\": \"38.73\", \"longitude\": \"-9.13\"\x7d", 500)]

/-- C4 (code bug): a five-entry track history with exactly one malformed
member does not return the four valid entries — the loop iterates the
(member, score) pairs returned by ZRANGE WITHSCORES as if they were a flat
member/score list, json.loads raises an uncaught TypeError on the first
tuple, and the whole call fails with the generic 500 error. -/
theorem track_five_one_malformed_fails :
    cex4track.length = 5 ∧
    get_vehicle_track cex4track = .error ⟨500, "Failed to fetch vehicle track"⟩ := by
  decide

/-- Under the flat member/score layout the loop was written for, the same
five-entry history with one malformed member would yield exactly the four
valid points in score order, the malformed member being skipped by the
inner except clause — the behavior the specification describes. -/
theorem trackLoop_flat_skips_malformed :
    trackLoop
      [.str "\x7b\"latitude\": \"38.70\", \"longitude\": \"-9.10\"\x7d", .str "100",
       .str "\x7b\"latitude\": \"38.71\", \"longitude\": \"-9.11\"\x7d", .str "200",
       .str "corrupted", .str "300",
       .str "\x7b\"latitude\": \"38.72\", \"longitude\": \"-9.12\"\x7d", .str "400",
       .str "\x7b\"latitude\": \"38.73\", \"longitude\": \"-9.13\"\x7d", .str "500"]
      = .ok [⟨mkRat 3870 100, mkRat (-910) 100, 100⟩, ⟨mkRat 3871 100, mkRat (-911) 100, 200⟩,
             ⟨mkRat 3872 100, mkRat (-912) 100, 400⟩, ⟨mkRat 3873 100, mkRat (-913) 100, 500⟩] := by
  decide

end Carris
